import Mathlib

/-
Verification of the helga webhooks plugin (route registry, request
dispatcher, auth gate, service lifecycle, extension loader and chat
control surface).  The module helga/plugins/webhooks.py is exercised by
helga/tests/plugins/test_webhooks.py; the definitions below embed its
data model and operations, following the specification and the concrete
behaviour pinned down by the test suite.
-/

namespace Helga

/-- Modelled from the spec: the request context consumed by the dispatcher
(helga/plugins/webhooks.py is not present in the sources; spec section 6
lists the readable fields `path`, `method`, `user`, `password`). -/
structure Request where
  path : String
  method : String
  user : String
  password : String
deriving Repr, DecidableEq

/-- Modelled from the spec: `DomainError` (`HttpError` in the code), carrying
a status code and a message, raised by a handler to signal an HTTP failure. -/
structure HttpError where
  status_code : Nat
  message : String
deriving Repr, DecidableEq

/-- A route handler: receives the request context and the client context and
either returns a response body or raises an `HttpError`. -/
abbrev Handler (γ : Type) := Request → γ → Except HttpError String

/-- The mutable response fields of the request context: the response code set
by `setResponseCode` and the headers set by `setHeader`. -/
structure ResponseState where
  code : Option Nat
  headers : List (String × String)
deriving Repr, DecidableEq

/-- The observable outcome of one dispatch: the returned body, the response
state mutations, and how many times the route handler was invoked. -/
structure RenderOut where
  body : String
  resp : ResponseState
  handlerCalls : Nat
deriving Repr, DecidableEq

/-- Update an association list at a key, keeping insertion order: the first
binding of the key is overwritten in place, a missing key is appended.  This
is the mapping update `self.routes[path] = (methods, fn)` of the registry. -/
def addAssoc {α : Type} : List (String × α) → String → α → List (String × α)
  | [], p, v => [(p, v)]
  | e :: t, p, v => if e.1 == p then (p, v) :: t else e :: addAssoc t p v

/-- Exact-path lookup in the association list (`request.path in self.routes`
followed by `self.routes[request.path]`): first binding whose key equals the
path, no normalisation or pattern matching. -/
def lookupAssoc {α : Type} (l : List (String × α)) (p : String) : Option α :=
  (List.find? (fun e => e.1 == p) l).map Prod.snd

/-- Modelled from the spec: the `WebhookRoot` dispatch resource, owning the
route registry (path → (allowed methods, handler)) and the chat client handed
to handlers. -/
structure WebhookRoot (γ : Type) where
  irc_client : γ
  routes : List (String × (List String × Handler γ))

/-- Modelled from the spec: `WebhookRoot.add_route(fn, path, methods)` stores
or overwrites the route keyed by `path`; no validation, no error cases. -/
def add_route {γ : Type} (root : WebhookRoot γ) (fn : Handler γ)
    (path : String) (methods : List String) : WebhookRoot γ :=
  { root with routes := addAssoc root.routes path (methods, fn) }

/-- Modelled from the spec: `WebhookRoot.render(request)`.  A miss on the path
yields 404 with a fixed body and no handler call; a hit with a method outside
the allowed list yields 405 likewise; otherwise the handler is invoked once
with the request and the client.  On normal return its value is the body and
the `('Server', 'helga')` header is set; on a raised `HttpError` the response
code becomes its status code, its message becomes the body, and no header is
set. -/
def render {γ : Type} (root : WebhookRoot γ) (req : Request) : RenderOut :=
  match lookupAssoc root.routes req.path with
  | none => ⟨"404 Not Found", ⟨some 404, []⟩, 0⟩
  | some (methods, fn) =>
    if methods.contains req.method then
      match fn req root.irc_client with
      | Except.ok body => ⟨body, ⟨none, [("Server", "helga")]⟩, 1⟩
      | Except.error e => ⟨e.message, ⟨some e.status_code, []⟩, 1⟩
    else
      ⟨"405 Method Not Allowed", ⟨some 405, []⟩, 0⟩

/-- The observable outcome of calling an `authenticated`-wrapped handler: the
result (body or raised error), the response code set on the request if any,
and how many times the wrapped handler was invoked. -/
structure AuthOut where
  result : Except HttpError String
  codeSet : Option Nat
  wrappedCalls : Nat

/-- Modelled from the spec: the `authenticated` decorator.  `creds` is the
configured `WEBHOOKS_CREDENTIALS` set (`none` = unconfigured).  If the set is
empty or unconfigured every request is authorized (fail-open); otherwise the
`(user, password)` pair read from the request must be a member of the set,
else the response code is set to 401 and the fixed body is returned without
invoking the wrapped handler. -/
def authenticated {γ : Type} (creds : Option (List (String × String)))
    (fn : Handler γ) (req : Request) (client : γ) : AuthOut :=
  match creds with
  | none => ⟨fn req client, none, 1⟩
  | some cs =>
    if cs.isEmpty then ⟨fn req client, none, 1⟩
    else if cs.contains (req.user, req.password) then ⟨fn req client, none, 1⟩
    else ⟨Except.ok "401 Unauthorized", some 401, 0⟩

/-- Modelled from the spec: the `route(path, methods)` registration decorator.
With no methods argument the allowed methods default to `['GET']`; an explicit
argument is passed through unchanged to `add_route`. -/
def route {γ : Type} (path : String) (methods : Option (List String))
    (fn : Handler γ) (root : WebhookRoot γ) : WebhookRoot γ :=
  add_route root fn path (methods.getD ["GET"])

/-- Side effects on the external listener capability performed by the service
lifecycle: `reactor.listenTCP` binds a listener, `stopListening` and
`loseConnection` release it. -/
inductive LifeEffect
  | bind (port : Nat)
  | stopListening
  | loseConnection
deriving Repr, DecidableEq

/-- Modelled from the spec: the lifecycle-relevant state of `WebhookPlugin`:
whether the dispatch root and site exist, the listener handle (`tcp`, `none`
when stopped), and the configured port (default 8080). -/
structure WebhookPlugin where
  root : Bool
  site : Bool
  tcp : Option Unit
  port : Nat
deriving Repr, DecidableEq

/-- Modelled from the spec: `WebhookPlugin._start`: constructs the dispatch
root unless one already exists, builds the site, and binds one listener on the
configured port, storing the handle. -/
def startPlugin (p : WebhookPlugin) : WebhookPlugin × List LifeEffect :=
  ({ p with root := true, site := true, tcp := some () }, [LifeEffect.bind p.port])

/-- Modelled from the spec: `WebhookPlugin._stop`: tells the listener handle
to stop accepting and close its connection, then clears the handle to None. -/
def stopPlugin (p : WebhookPlugin) : WebhookPlugin × List LifeEffect :=
  ({ p with tcp := none }, [LifeEffect.stopListening, LifeEffect.loseConnection])

/-- Modelled from the spec: `WebhookPlugin.control(action)`: start on a
stopped service binds once and acknowledges; start on a running service only
acknowledges; stop symmetrically.  Returns the acknowledgement, the new
plugin state and the listener effects performed. -/
def control (p : WebhookPlugin) (action : String) :
    Option String × WebhookPlugin × List LifeEffect :=
  if action == "start" then
    if p.tcp.isSome then (some "Webhooks service already running", p, [])
    else
      let r := startPlugin p
      (some "Webhooks service started", r.1, r.2)
  else if action == "stop" then
    if p.tcp.isNone then (some "Webhooks service not running", p, [])
    else
      let r := stopPlugin p
      (some "Webhooks service stopped", r.1, r.2)
  else (none, p, [])

/-- The chat client consumed by the control surface: its operator set and the
accumulated `msg` and `me` calls (target, text), each call one reply unit. -/
structure Client where
  operators : List String
  msgs : List (String × String)
  actions : List (String × String)
deriving Repr, DecidableEq

/-- One `client.msg(target, text)` call: appends a single reply unit. -/
def sendMsg (client : Client) (target text : String) : Client :=
  { client with msgs := client.msgs ++ [(target, text)] }

/-- One `client.me(channel, text)` call (an action message). -/
def sendMe (client : Client) (channel text : String) : Client :=
  { client with actions := client.actions ++ [(channel, text)] }

/-- Modelled from the spec: `WebhookPlugin.list_routes(client, nick)`: sends a
greeting line, then for each registered route one `[METHOD,METHOD] /path`
line, every line its own `client.msg(nick, ...)` call. -/
def list_routes {γ : Type} (routes : List (String × (List String × Handler γ)))
    (client : Client) (nick : String) : Client :=
  let c := sendMsg client nick (nick ++ ", here are the routes I know about")
  routes.foldl
    (fun acc e => sendMsg acc nick ("[" ++ String.intercalate "," e.2.1 ++ "] " ++ e.1))
    c

/-- Modelled from the spec: `WebhookPlugin.run(client, channel, nick, message,
cmd, args)`: the subcommand is the first argument, defaulting to `routes`.
`start`/`stop` require the nick to be in the client's operator set, otherwise
a fixed refusal is returned and no lifecycle operation happens; for an
operator the corresponding `control` call is made.  Any other subcommand
whispers to the nick and lists the routes. -/
def run {γ : Type} (p : WebhookPlugin)
    (routes : List (String × (List String × Handler γ))) (client : Client)
    (channel nick message cmd : String) (args : List String) :
    Option String × WebhookPlugin × Client × List LifeEffect :=
  let subcmd := args.headD "routes"
  if subcmd == "start" || subcmd == "stop" then
    if client.operators.contains nick then
      let r := control p subcmd
      (r.1, r.2.1, client, r.2.2)
    else
      (some ("Sorry " ++ nick ++ ", Only an operator can do that"), p, client, [])
  else
    let c := sendMe client channel ("whispers to " ++ nick)
    (none, p, list_routes routes c nick, [])

/-- A discovered entry point: its declared name (resolution is observed via
membership in the returned load list). -/
structure EntryPoint where
  name : String
deriving Repr, DecidableEq

/-- Modelled from the spec: `WebhookPlugin._init_routes`: enumerates the entry
points of the fixed group `helga_webhooks` and loads (resolves and invokes)
exactly those whose name is in the `ENABLED_WEBHOOKS` allow-list, or all of
them when the list is unconfigured (`none`).  Returns the queried group name
and the entry points that were loaded, in discovery order. -/
def init_routes (enabled : Option (List String)) (eps : List EntryPoint) :
    String × List EntryPoint :=
  ("helga_webhooks",
    eps.filter (fun ep =>
      match enabled with
      | none => true
      | some l => l.contains ep.name))

/-! Helper lemmas -/

theorem lookupAssoc_addAssoc {α : Type} (l : List (String × α)) (p : String) (v : α) :
    lookupAssoc (addAssoc l p v) p = some v := by
  induction l with
  | nil => simp [addAssoc, lookupAssoc, List.find?]
  | cons e t ih =>
    cases h : (e.1 == p) with
    | true => simp [addAssoc, h, lookupAssoc, List.find?]
    | false =>
      simp only [addAssoc, h, Bool.false_eq_true, if_false]
      simpa [lookupAssoc, List.find?, h] using ih

theorem foldl_sendMsg {α : Type} (f : α → String) (l : List α) (c : Client) (nick : String) :
    l.foldl (fun acc e => sendMsg acc nick (f e)) c =
      { c with msgs := c.msgs ++ l.map (fun e => (nick, f e)) } := by
  induction l generalizing c with
  | nil => simp [sendMsg]
  | cons e t ih =>
    rw [List.foldl_cons, ih (sendMsg c nick (f e))]
    simp [sendMsg]

/-! Concrete fixtures used by witnesses, mirroring the test suite -/

def wFn : Handler Unit := fun _ _ => Except.ok "foo"

def wErrFn : Handler Unit := fun _ _ => Except.error ⟨404, "foo not found"⟩

def wRoot : WebhookRoot Unit := ⟨(), [("/path/to/resource", (["GET"], wFn))]⟩

def wErrRoot : WebhookRoot Unit := ⟨(), [("/path/to/resource", (["GET"], wErrFn))]⟩

def wOkFn : Handler Unit := fun _ _ => Except.ok "OK"

def pStopped : WebhookPlugin := ⟨false, false, none, 8080⟩

def pRunning : WebhookPlugin := ⟨true, true, some (), 8080⟩

/-! Claim theorems -/

/-- C1: dispatching a request whose path is absent from the registry sets
response code 404 and returns the fixed body with no handler invocation; a
registered path with a method outside its allowed list sets 405 and returns
the fixed body, likewise without invoking the handler. -/
theorem render_miss_404_405 {γ : Type} (root : WebhookRoot γ) (req : Request) :
    (lookupAssoc root.routes req.path = none →
      render root req = ⟨"404 Not Found", ⟨some 404, []⟩, 0⟩) ∧
    (∀ ms fn, lookupAssoc root.routes req.path = some (ms, fn) →
      req.method ∉ ms →
      render root req = ⟨"405 Method Not Allowed", ⟨some 405, []⟩, 0⟩) := by
  constructor
  · intro h
    simp [render, h]
  · intro ms fn h hm
    simp [render, h, hm]

theorem render_miss_404_405_witness :
    render wRoot ⟨"/foo/bar/baz", "POST", "", ""⟩ = ⟨"404 Not Found", ⟨some 404, []⟩, 0⟩ ∧
    render wRoot ⟨"/path/to/resource", "POST", "", ""⟩ =
      ⟨"405 Method Not Allowed", ⟨some 405, []⟩, 0⟩ :=
  ⟨(render_miss_404_405 wRoot ⟨"/foo/bar/baz", "POST", "", ""⟩).1 rfl,
   (render_miss_404_405 wRoot ⟨"/path/to/resource", "POST", "", ""⟩).2 ["GET"] wFn rfl
     (by decide)⟩

/-- C2: dispatching a registered path with an allowed method invokes the
handler exactly once with the request and the client context; its return
value is the body and the `('Server', 'helga')` header is set; moreover that
header appears only on this handler-success path. -/
theorem render_success {γ : Type} (root : WebhookRoot γ) (req : Request) :
    (∀ ms fn b, lookupAssoc root.routes req.path = some (ms, fn) →
      req.method ∈ ms →
      fn req root.irc_client = Except.ok b →
      render root req = ⟨b, ⟨none, [("Server", "helga")]⟩, 1⟩) ∧
    (∀ req2 : Request, (render root req2).resp.headers ≠ [] →
      ∃ ms fn b, lookupAssoc root.routes req2.path = some (ms, fn) ∧
        req2.method ∈ ms ∧
        fn req2 root.irc_client = Except.ok b ∧
        render root req2 = ⟨b, ⟨none, [("Server", "helga")]⟩, 1⟩) := by
  constructor
  · intro ms fn b h hm hb
    simp [render, h, hm, hb]
  · intro req2 hne
    cases hl : lookupAssoc root.routes req2.path with
    | none => simp [render, hl] at hne
    | some v =>
      obtain ⟨ms, fn⟩ := v
      by_cases hm : req2.method ∈ ms
      · cases hb : fn req2 root.irc_client with
        | ok b => exact ⟨ms, fn, b, rfl, hm, hb, by simp [render, hl, hm, hb]⟩
        | error e => simp [render, hl, hm, hb] at hne
      · simp [render, hl, hm] at hne

theorem render_success_witness :
    render wRoot ⟨"/path/to/resource", "GET", "", ""⟩ =
      ⟨"foo", ⟨none, [("Server", "helga")]⟩, 1⟩ :=
  (render_success wRoot ⟨"/path/to/resource", "GET", "", ""⟩).1 ["GET"] wFn "foo" rfl
    (by decide) rfl

/-- C3: when the invoked handler raises an `HttpError`, the dispatcher sets
the response code to its status code, returns its message as the body, and
sets no header. -/
theorem render_http_error {γ : Type} (root : WebhookRoot γ) (req : Request)
    (ms : List String) (fn : Handler γ) (e : HttpError)
    (h : lookupAssoc root.routes req.path = some (ms, fn))
    (hm : req.method ∈ ms)
    (he : fn req root.irc_client = Except.error e) :
    render root req = ⟨e.message, ⟨some e.status_code, []⟩, 1⟩ := by
  simp [render, h, hm, he]

theorem render_http_error_witness :
    render wErrRoot ⟨"/path/to/resource", "GET", "", ""⟩ =
      ⟨"foo not found", ⟨some 404, []⟩, 1⟩ :=
  render_http_error wErrRoot ⟨"/path/to/resource", "GET", "", ""⟩ ["GET"] wErrFn
    ⟨404, "foo not found"⟩ rfl (by decide) rfl

/-- C4: with a non-empty configured credential set, a request whose
`(user, password)` pair is in the set reaches the wrapped handler, and any
other pair yields response code 401 with the fixed body and no handler
invocation. -/
theorem authenticated_gate {γ : Type} (cs : List (String × String))
    (fn : Handler γ) (req : Request) (client : γ) (hne : cs ≠ []) :
    ((req.user, req.password) ∈ cs →
      authenticated (some cs) fn req client = ⟨fn req client, none, 1⟩) ∧
    ((req.user, req.password) ∉ cs →
      authenticated (some cs) fn req client =
        ⟨Except.ok "401 Unauthorized", some 401, 0⟩) := by
  constructor
  · intro h
    simp [authenticated, hne, h]
  · intro h
    simp [authenticated, hne, h]

theorem authenticated_gate_witness :
    authenticated (some [("foo", "bar")]) wOkFn ⟨"/", "GET", "foo", "bar"⟩ () =
      ⟨Except.ok "OK", none, 1⟩ ∧
    authenticated (some [("person", "password")]) wOkFn ⟨"/", "GET", "foo", "bar"⟩ () =
      ⟨Except.ok "401 Unauthorized", some 401, 0⟩ :=
  ⟨(authenticated_gate [("foo", "bar")] wOkFn ⟨"/", "GET", "foo", "bar"⟩ ()
      (by decide)).1 (by decide),
   (authenticated_gate [("person", "password")] wOkFn ⟨"/", "GET", "foo", "bar"⟩ ()
      (by decide)).2 (by decide)⟩

/-- C5: with an empty or unconfigured credential set, every request is
authorized: the wrapped handler is invoked regardless of the user and
password fields (fail-open). -/
theorem authenticated_fail_open {γ : Type} (creds : Option (List (String × String)))
    (fn : Handler γ) (req : Request) (client : γ)
    (h : creds = none ∨ creds = some []) :
    authenticated creds fn req client = ⟨fn req client, none, 1⟩ := by
  rcases h with h | h <;> subst h <;> simp [authenticated]

theorem authenticated_fail_open_witness :
    authenticated none wOkFn ⟨"/", "GET", "anyone", "anything"⟩ () =
      ⟨Except.ok "OK", none, 1⟩ :=
  authenticated_fail_open none wOkFn ⟨"/", "GET", "anyone", "anything"⟩ () (Or.inl rfl)

/-- C6: the lifecycle keeps at most one bound listener: starting a stopped
service acknowledges "started" and performs exactly one bind; starting a
running service acknowledges "already running" with no bind; stopping a
running service acknowledges "stopped", releases the listener and clears the
handle to None; stopping a stopped service acknowledges "not running" with no
side effect. -/
theorem control_lifecycle (p : WebhookPlugin) :
    (p.tcp = none → control p "start" =
      (some "Webhooks service started",
       { p with root := true, site := true, tcp := some () },
       [LifeEffect.bind p.port])) ∧
    (p.tcp = some () → control p "start" =
      (some "Webhooks service already running", p, [])) ∧
    (p.tcp = some () → control p "stop" =
      (some "Webhooks service stopped", { p with tcp := none },
       [LifeEffect.stopListening, LifeEffect.loseConnection])) ∧
    (p.tcp = none → control p "stop" =
      (some "Webhooks service not running", p, [])) := by
  refine ⟨?_, ?_, ?_, ?_⟩ <;> intro h <;>
    simp [control, startPlugin, stopPlugin, h]

theorem control_lifecycle_witness :
    control pStopped "start" =
      (some "Webhooks service started", pRunning, [LifeEffect.bind 8080]) ∧
    control pRunning "start" = (some "Webhooks service already running", pRunning, []) ∧
    control pRunning "stop" =
      (some "Webhooks service stopped", ⟨true, true, none, 8080⟩,
       [LifeEffect.stopListening, LifeEffect.loseConnection]) ∧
    control pStopped "stop" = (some "Webhooks service not running", pStopped, []) :=
  ⟨(control_lifecycle pStopped).1 rfl,
   (control_lifecycle pRunning).2.1 rfl,
   (control_lifecycle pRunning).2.2.1 rfl,
   (control_lifecycle pStopped).2.2.2 rfl⟩

/-- C7: a `start` or `stop` chat invocation by a nick outside the operator
set returns the fixed refusal, leaves the plugin state untouched and performs
no lifecycle effect; for a nick in the operator set the corresponding
`control` operation is invoked and its result returned. -/
theorem run_operator_gate {γ : Type} (p : WebhookPlugin)
    (routes : List (String × (List String × Handler γ))) (client : Client)
    (channel nick message cmd a : String)
    (ha : a = "start" ∨ a = "stop") :
    (nick ∉ client.operators →
      run p routes client channel nick message cmd [a] =
        (some ("Sorry " ++ nick ++ ", Only an operator can do that"), p, client, [])) ∧
    (nick ∈ client.operators →
      run p routes client channel nick message cmd [a] =
        ((control p a).1, (control p a).2.1, client, (control p a).2.2)) := by
  constructor <;> intro h <;>
    rcases ha with ha | ha <;> subst ha <;> simp [run, h]

theorem run_operator_gate_witness :
    run pStopped ([] : List (String × (List String × Handler Unit)))
        ⟨[], [], []⟩ "#bots" "me" "msg" "cmd" ["start"] =
      (some "Sorry me, Only an operator can do that", pStopped, ⟨[], [], []⟩, []) ∧
    run pStopped ([] : List (String × (List String × Handler Unit)))
        ⟨["me"], [], []⟩ "#bots" "me" "msg" "cmd" ["start"] =
      (some "Webhooks service started", pRunning, ⟨["me"], [], []⟩,
       [LifeEffect.bind 8080]) :=
  ⟨(run_operator_gate pStopped ([] : List (String × (List String × Handler Unit)))
      ⟨[], [], []⟩ "#bots" "me" "msg" "cmd" "start" (Or.inl rfl)).1 (by decide),
   (run_operator_gate pStopped ([] : List (String × (List String × Handler Unit)))
      ⟨["me"], [], []⟩ "#bots" "me" "msg" "cmd" "start" (Or.inl rfl)).2 (by decide)⟩

/-- C8: route initialisation queries the fixed entry-point group
`helga_webhooks`; with a configured allow-list exactly the discovered entry
points whose name is in the list are loaded (the others are never resolved),
and with the list unconfigured every discovered entry point is loaded. -/
theorem init_routes_filter (enabled : Option (List String)) (eps : List EntryPoint) :
    (init_routes enabled eps).1 = "helga_webhooks" ∧
    (∀ l, enabled = some l → ∀ ep : EntryPoint,
      ep ∈ (init_routes enabled eps).2 ↔ ep ∈ eps ∧ ep.name ∈ l) ∧
    (enabled = none → (init_routes enabled eps).2 = eps) := by
  refine ⟨rfl, ?_, ?_⟩
  · intro l hl ep
    subst hl
    simp [init_routes, List.mem_filter]
  · intro hl
    subst hl
    simp [init_routes]

theorem init_routes_filter_witness :
    (init_routes (some ["foo"]) [⟨"foo"⟩, ⟨"bar"⟩]).1 = "helga_webhooks" ∧
    EntryPoint.mk "foo" ∈ (init_routes (some ["foo"]) [⟨"foo"⟩, ⟨"bar"⟩]).2 ∧
    EntryPoint.mk "bar" ∉ (init_routes (some ["foo"]) [⟨"foo"⟩, ⟨"bar"⟩]).2 := by
  refine ⟨(init_routes_filter (some ["foo"]) [⟨"foo"⟩, ⟨"bar"⟩]).1, ?_, ?_⟩
  · exact ((init_routes_filter (some ["foo"]) [⟨"foo"⟩, ⟨"bar"⟩]).2.1 ["foo"] rfl
      ⟨"foo"⟩).mpr ⟨by simp, by simp⟩
  · intro hmem
    have h := ((init_routes_filter (some ["foo"]) [⟨"foo"⟩, ⟨"bar"⟩]).2.1 ["foo"] rfl
      ⟨"bar"⟩).mp hmem
    simp at h

/-- C9 (amended): the `routes` subcommand and the bare default behave
identically; the greeting line and one `[METHOD,METHOD] /path` line per
registered route (methods joined by commas in stored order) are each sent as
a separate `msg` reply unit to the invoking nick, while the originating
channel receives only a `whispers to <nick>` action. -/
theorem run_routes_listing {γ : Type} (p : WebhookPlugin)
    (routes : List (String × (List String × Handler γ))) (client : Client)
    (channel nick message cmd : String) :
    run p routes client channel nick message cmd [] =
      run p routes client channel nick message cmd ["routes"] ∧
    run p routes client channel nick message cmd ["routes"] =
      (none, p,
        { client with
            actions := client.actions ++ [(channel, "whispers to " ++ nick)],
            msgs := client.msgs ++
              (nick, nick ++ ", here are the routes I know about") ::
              routes.map (fun e =>
                (nick, "[" ++ String.intercalate "," e.2.1 ++ "] " ++ e.1)) },
        []) := by
  constructor
  · rfl
  · show (none, p, list_routes routes (sendMe client channel ("whispers to " ++ nick)) nick,
      ([] : List LifeEffect)) = _
    rw [list_routes,
      @foldl_sendMsg (String × (List String × Handler γ))
        (fun e => "[" ++ String.intercalate "," e.2.1 ++ "] " ++ e.1) routes
        (sendMsg (sendMe client channel ("whispers to " ++ nick)) nick
          (nick ++ ", here are the routes I know about")) nick]
    simp [sendMsg, sendMe]

def cRoutes : List (String × (List String × Handler Unit)) :=
  [("/foo/bar/", (["POST", "GET"], wFn)), ("/unicode/support/☃", (["PUT"], wOkFn))]

/-- C9 counterexample: with the command issued in channel `#bots` by nick
`me`, every listing line is sent to `me` and none to the originating channel
`#bots`, which only receives the whisper action. -/
theorem run_routes_counterexample :
    (run pStopped cRoutes ⟨[], [], []⟩ "#bots" "me" "msg" "cmd" ["routes"]).2.2.1.msgs =
      [("me", "me, here are the routes I know about"),
       ("me", "[POST,GET] /foo/bar/"),
       ("me", "[PUT] /unicode/support/☃")] ∧
    (run pStopped cRoutes ⟨[], [], []⟩ "#bots" "me" "msg" "cmd" ["routes"]).2.2.1.actions =
      [("#bots", "whispers to me")] ∧
    ("me" : String) ≠ "#bots" :=
  ⟨rfl, rfl, by decide⟩

theorem run_routes_listing_witness :
    run pStopped cRoutes ⟨[], [], []⟩ "#bots" "me" "msg" "cmd" [] =
      run pStopped cRoutes ⟨[], [], []⟩ "#bots" "me" "msg" "cmd" ["routes"] :=
  (run_routes_listing pStopped cRoutes ⟨[], [], []⟩ "#bots" "me" "msg" "cmd").1

/-- C10: registering a route with no methods argument stores the handler
under the path with allowed methods exactly `['GET']`; an explicit methods
argument is stored unchanged. -/
theorem route_default_methods {γ : Type} (path : String) (fn : Handler γ)
    (root : WebhookRoot γ) :
    lookupAssoc (route path none fn root).routes path = some (["GET"], fn) ∧
    (∀ ms, lookupAssoc (route path (some ms) fn root).routes path = some (ms, fn)) := by
  constructor
  · exact lookupAssoc_addAssoc root.routes path (["GET"], fn)
  · intro ms
    exact lookupAssoc_addAssoc root.routes path (ms, fn)

theorem route_default_methods_witness :
    lookupAssoc (route "/foo" none wOkFn ⟨(), []⟩).routes "/foo" =
      some (["GET"], wOkFn) :=
  (route_default_methods "/foo" wOkFn ⟨(), []⟩).1

end Helga
